import Mathlib

/-!
Verification development for the deepstream.hpp tutorial repository
(src/tutorials/gstreamer00/gstreamer.hpp and gstreamer00.cpp).

The external multimedia framework (GStreamer) is modelled as an oracle:
every framework call made by the program has its result supplied as an
explicit value (raw pointers become values of type Option Nat, with none
standing for a null pointer; a GstMessage the framework hands over is a
MsgVal carrying the data the program reads out of it).  The code of the
repository itself is embedded function by function below.
-/

/-- Exit codes from cstdlib as used by the program. -/
def EXIT_SUCCESS : Nat := 0

/-- Failure exit code from cstdlib. -/
def EXIT_FAILURE : Nat := 1

namespace gst

/-- A raw native pointer: none is the null pointer, some a is a non-null
address.  All four handle kinds use this representation. -/
abbrev RawPtr := Option Nat

/-- The message-type tag, carried as the 32-bit pattern of the underlying
std::int32_t of the C++ enum class MessageType (gstreamer.hpp). -/
structure MessageType where
  val : Nat
deriving DecidableEq

/-- GST_MESSAGE_UNKNOWN. -/
def MessageType.Unknown : MessageType := ⟨0⟩

/-- GST_MESSAGE_EOS. -/
def MessageType.EOS : MessageType := ⟨1⟩

/-- GST_MESSAGE_ERROR. -/
def MessageType.Error : MessageType := ⟨2⟩

/-- GST_MESSAGE_WARNING. -/
def MessageType.Warning : MessageType := ⟨4⟩

/-- GST_MESSAGE_INFO. -/
def MessageType.Info : MessageType := ⟨8⟩

/-- GST_MESSAGE_TAG. -/
def MessageType.Tag : MessageType := ⟨16⟩

/-- GST_MESSAGE_BUFFERING. -/
def MessageType.Buffering : MessageType := ⟨32⟩

/-- GST_MESSAGE_STATE_CHANGED. -/
def MessageType.StateChanged : MessageType := ⟨64⟩

/-- GST_MESSAGE_STATE_DIRTY. -/
def MessageType.StateDirty : MessageType := ⟨128⟩

/-- GST_MESSAGE_STEP_DONE. -/
def MessageType.StepDone : MessageType := ⟨256⟩

/-- GST_MESSAGE_CLOCK_PROVIDE. -/
def MessageType.ClockProvide : MessageType := ⟨512⟩

/-- GST_MESSAGE_CLOCK_LOST. -/
def MessageType.ClockLost : MessageType := ⟨1024⟩

/-- GST_MESSAGE_NEW_CLOCK. -/
def MessageType.NewClock : MessageType := ⟨2048⟩

/-- GST_MESSAGE_STRUCTURE_CHANGE. -/
def MessageType.StructureChange : MessageType := ⟨4096⟩

/-- GST_MESSAGE_STREAM_STATUS. -/
def MessageType.StreamStatus : MessageType := ⟨8192⟩

/-- GST_MESSAGE_APPLICATION. -/
def MessageType.Application : MessageType := ⟨16384⟩

/-- GST_MESSAGE_ELEMENT. -/
def MessageType.Element : MessageType := ⟨32768⟩

/-- GST_MESSAGE_SEGMENT_START. -/
def MessageType.SegmentStart : MessageType := ⟨65536⟩

/-- GST_MESSAGE_SEGMENT_DONE. -/
def MessageType.SegmentDone : MessageType := ⟨131072⟩

/-- GST_MESSAGE_DURATION_CHANGED. -/
def MessageType.DurationChanged : MessageType := ⟨262144⟩

/-- GST_MESSAGE_LATENCY. -/
def MessageType.Latency : MessageType := ⟨524288⟩

/-- GST_MESSAGE_ASYNC_START. -/
def MessageType.AsyncStart : MessageType := ⟨1048576⟩

/-- GST_MESSAGE_ASYNC_DONE. -/
def MessageType.AsyncDone : MessageType := ⟨2097152⟩

/-- GST_MESSAGE_REQUEST_STATE. -/
def MessageType.RequestState : MessageType := ⟨4194304⟩

/-- GST_MESSAGE_STEP_START. -/
def MessageType.StepStart : MessageType := ⟨8388608⟩

/-- GST_MESSAGE_QOS. -/
def MessageType.QoS : MessageType := ⟨16777216⟩

/-- GST_MESSAGE_PROGRESS. -/
def MessageType.Progress : MessageType := ⟨33554432⟩

/-- GST_MESSAGE_TOC. -/
def MessageType.Toc : MessageType := ⟨67108864⟩

/-- GST_MESSAGE_RESET_TIME. -/
def MessageType.ResetTime : MessageType := ⟨134217728⟩

/-- GST_MESSAGE_STREAM_START. -/
def MessageType.StreamStart : MessageType := ⟨268435456⟩

/-- GST_MESSAGE_NEED_CONTEXT. -/
def MessageType.NeedContext : MessageType := ⟨536870912⟩

/-- GST_MESSAGE_HAVE_CONTEXT. -/
def MessageType.HaveContext : MessageType := ⟨1073741824⟩

/-- GST_MESSAGE_EXTENDED, bit pattern of (gint)(1u shifted left 31). -/
def MessageType.Extended : MessageType := ⟨2147483648⟩

/-- GST_MESSAGE_DEVICE_ADDED. -/
def MessageType.DeviceAdded : MessageType := ⟨2147483649⟩

/-- GST_MESSAGE_DEVICE_REMOVED. -/
def MessageType.DeviceRemoved : MessageType := ⟨2147483650⟩

/-- GST_MESSAGE_PROPERTY_NOTIFY. -/
def MessageType.PropertyNotify : MessageType := ⟨2147483651⟩

/-- GST_MESSAGE_STREAM_COLLECTION. -/
def MessageType.StreamCollection : MessageType := ⟨2147483652⟩

/-- GST_MESSAGE_STREAMS_SELECTED. -/
def MessageType.StreamsSelected : MessageType := ⟨2147483653⟩

/-- GST_MESSAGE_REDIRECT. -/
def MessageType.Redirect : MessageType := ⟨2147483654⟩

/-- GST_MESSAGE_DEVICE_CHANGED. -/
def MessageType.DeviceChanged : MessageType := ⟨2147483655⟩

/-- GST_MESSAGE_INSTANT_RATE_REQUEST. -/
def MessageType.InstantRateRequest : MessageType := ⟨2147483656⟩

/-- GST_MESSAGE_ANY, bit pattern of (gint)0xffffffff. -/
def MessageType.Any : MessageType := ⟨4294967295⟩

/-- Bitwise-or operator on MessageType (gstreamer.hpp operator|):
the int32 or of the two underlying values, as a 32-bit pattern. -/
def MessageType.bor (lhs rhs : MessageType) : MessageType :=
  ⟨(Nat.lor lhs.val rhs.val) % 4294967296⟩

/-- Bitwise-and operator on MessageType (gstreamer.hpp operator&). -/
def MessageType.band (lhs rhs : MessageType) : MessageType :=
  ⟨(Nat.land lhs.val rhs.val) % 4294967296⟩

/-- A call into a framework release function, as recorded by the deleters. -/
inductive ReleaseCall where
  | gstObjectUnref (p : Nat)
  | gErrorFree (p : Nat)
  | gstMessageUnref (p : Nat)
deriving DecidableEq

/-- Deleter for GstElement handles (gstreamer.hpp GstElementDeleter):
calls gst_object_unref exactly when the pointer is non-null. -/
def GstElementDeleter : RawPtr → List ReleaseCall
  | none => []
  | some p => [ReleaseCall.gstObjectUnref p]

/-- Deleter for GstBus handles (gstreamer.hpp GstBusDeleter):
calls gst_object_unref exactly when the pointer is non-null. -/
def GstBusDeleter : RawPtr → List ReleaseCall
  | none => []
  | some p => [ReleaseCall.gstObjectUnref p]

/-- Deleter for GError handles (gstreamer.hpp GstErrorDeleter):
calls g_error_free exactly when the pointer is non-null. -/
def GstErrorDeleter : RawPtr → List ReleaseCall
  | none => []
  | some p => [ReleaseCall.gErrorFree p]

/-- Deleter for GstMessage handles (gstreamer.hpp GstMessageDeleter):
calls gst_message_unref exactly when the pointer is non-null. -/
def GstMessageDeleter : RawPtr → List ReleaseCall
  | none => []
  | some p => [ReleaseCall.gstMessageUnref p]

/-- The value behind a non-null GError pointer; the program only ever reads
its message field. -/
structure GErrorVal where
  message : String
deriving DecidableEq

/-- An ErrorPtr (unique_ptr of GError): an owned, possibly-null GError. -/
abbrev ErrorPtr := Option GErrorVal

/-- The data the program reads out of a GstMessage the framework delivers:
its type tag (GST_MESSAGE_TYPE), the name of its source object
(GST_OBJECT_NAME of its src), and the error and debug payload that
gst_message_parse_error would fill in for it (none when the corresponding
out-parameter would be left null). -/
structure MsgVal where
  mtype : MessageType
  srcName : String
  errPayload : Option GErrorVal
  debugPayload : Option String
deriving DecidableEq

/-- message_type (gstreamer.hpp): reads the GST_MESSAGE_TYPE tag of a
message. -/
def message_type (msg : MsgVal) : MessageType :=
  msg.mtype

/-- An ElementPtr (unique_ptr of GstElement with GstElementDeleter): an
owned, possibly-null raw element pointer. -/
abbrev ElementPtr := RawPtr

/-- The move-only Element wrapper of gstreamer.hpp, holding an ElementPtr. -/
structure Element where
  mElement : ElementPtr
deriving DecidableEq

/-- Element::get: the wrapped raw pointer. -/
def Element.get (e : Element) : RawPtr :=
  e.mElement

/-- Element::operator bool: true exactly when the wrapped pointer is
non-null. -/
def Element.toBool (e : Element) : Bool :=
  e.mElement.isSome

/-- Element move construction (Element(Element&&) = default): the member
unique_ptr is moved, so the destination receives the source's pointer and
the source is left null.  Returns (destination, moved-from source). -/
def Element.moveConstruct (src : Element) : Element × Element :=
  (⟨src.mElement⟩, ⟨none⟩)

/-- Element move assignment (operator=(Element&&) = default): the member
unique_ptr move-assignment releases the destination's old pointer through
the deleter, transfers the source's pointer, and leaves the source null.
Returns (new destination, moved-from source, release calls performed). -/
def Element.moveAssign (dst src : Element) : Element × Element × List ReleaseCall :=
  (⟨src.mElement⟩, ⟨none⟩, GstElementDeleter dst.mElement)

/-- The result of the framework call gst_parse_launch for a given pipeline
description: the returned element pointer and the error out-parameter. -/
structure ParseLaunchRaw where
  element : RawPtr
  error : Option GErrorVal
deriving DecidableEq

/-- parse_launch (gstreamer.hpp): calls gst_parse_launch (whose outcome fw
is supplied by the oracle); if the error out-parameter is non-null it
returns that error wrapped in an owned ErrorPtr, otherwise it returns the
returned element wrapped in an Element. -/
def parse_launch (fw : ParseLaunchRaw) : Except ErrorPtr Element :=
  match fw.error with
  | some e => Except.error (some e)
  | none => Except.ok ⟨fw.element⟩

/-- GST_STR_NULL: a string for a possibly-null C string, substituting the
literal "(NULL)" for a null pointer. -/
def GST_STR_NULL : Option String → String
  | some s => s
  | none => "(NULL)"

/-- message_parse_error (gstreamer.hpp): calls gst_message_parse_error on
the message (the payload it fills in is carried by the MsgVal); if the
error out-parameter is left null it reports failure, otherwise it copies
out the error message and the debug string (the latter through
GST_STR_NULL) and frees both payloads. -/
def message_parse_error (message : MsgVal) : Except String (String × String) :=
  match message.errPayload with
  | none => Except.error "No error found in message"
  | some err => Except.ok (err.message, GST_STR_NULL message.debugPayload)

/-- GstClockTime is a guint64; GST_CLOCK_TIME_NONE is its maximal value. -/
def GST_CLOCK_TIME_NONE : Nat := 18446744073709551615

/-- The framework's behaviour for gst_bus_timed_pop_filtered: the message
it yields (or none) for a given bus, timeout and type mask. -/
abbrev BusOracle := RawPtr → Nat → MessageType → Option MsgVal

/-- bus_timed_pop_filtered (gstreamer.hpp): calls
gst_bus_timed_pop_filtered (oracle fw); a null result becomes a
descriptive failure, a non-null message is returned owned. -/
def bus_timed_pop_filtered (fw : BusOracle) (bus : RawPtr) (timeout : Nat)
    (types : MessageType) : Except String MsgVal :=
  match fw bus timeout types with
  | none => Except.error "No message received from bus"
  | some msg => Except.ok msg

end gst

/-- GstStateChangeReturn: result of gst_element_set_state. -/
inductive StateChangeReturn where
  | failure
  | success
  | async
  | noPreroll
deriving DecidableEq

/-- One line of diagnostic output printed by tutorial_main
(gstreamer00.cpp), in program order. -/
inductive OutLine where
  | failedCreatePipeline (msg : String)
  | unableSetPlaying
  | unableGetBus
  | unexpectedNullMessage
  | errorReceived (srcName errMsg : String)
  | debuggingInfo (dbg : String)
  | eosReached
  | unableSetNull
deriving DecidableEq

/-- The oracle for one run of tutorial_main: the results of every framework
call the driver makes, in the order the source makes them. -/
structure World where
  parseElement : gst.RawPtr
  parseError : Option gst.GErrorVal
  playResult : StateChangeReturn
  busPtr : gst.RawPtr
  popMsg : Option gst.MsgVal
  nullResult : StateChangeReturn
deriving DecidableEq

/-- tutorial_main (gstreamer00.cpp): builds the pipeline via parse_launch,
sets it playing, obtains the bus, blocks on bus_timed_pop_filtered for an
Error or EOS message, dispatches on the message tag (printing the parsed
error and debug string, or an end-of-stream notice), and finally sets the
pipeline to the NULL state.  Returns the exit code and the printed lines. -/
def tutorial_main (w : World) : Nat × List OutLine :=
  match gst.parse_launch ⟨w.parseElement, w.parseError⟩ with
  | Except.error e =>
    (EXIT_FAILURE,
      [OutLine.failedCreatePipeline
        (match e with | some g => g.message | none => "unknown error")])
  | Except.ok _pipeline =>
    if w.playResult = StateChangeReturn.failure then
      (EXIT_FAILURE, [OutLine.unableSetPlaying])
    else
      match w.busPtr with
      | none =>
        (EXIT_FAILURE,
          OutLine.unableGetBus ::
            (if w.nullResult = StateChangeReturn.failure then
              [OutLine.unableSetNull] else []))
      | some _bus =>
        match gst.bus_timed_pop_filtered (fun _ _ _ => w.popMsg) w.busPtr
            gst.GST_CLOCK_TIME_NONE
            (gst.MessageType.bor gst.MessageType.Error gst.MessageType.EOS) with
        | Except.error _ =>
          (EXIT_FAILURE,
            OutLine.unexpectedNullMessage ::
              (if w.nullResult = StateChangeReturn.failure then
                [OutLine.unableSetNull] else []))
        | Except.ok msgPtr =>
          let dispatchOut : List OutLine :=
            if gst.message_type msgPtr = gst.MessageType.Error then
              match gst.message_parse_error msgPtr with
              | Except.ok p =>
                [OutLine.errorReceived msgPtr.srcName p.1,
                 OutLine.debuggingInfo p.2]
              | Except.error _ => []
            else if gst.message_type msgPtr = gst.MessageType.EOS then
              [OutLine.eosReached]
            else []
          if w.nullResult = StateChangeReturn.failure then
            (EXIT_FAILURE, dispatchOut ++ [OutLine.unableSetNull])
          else
            (EXIT_SUCCESS, dispatchOut)

/-- Concrete oracle for a run against an unreachable URI: every stage
succeeds, the bus delivers an error-tagged message carrying an error
payload and a debug string, and the final null transition succeeds. -/
def errorRunWorld : World :=
  ⟨some 1, none, StateChangeReturn.success, some 2,
    some ⟨gst.MessageType.Error, "playbin0",
      some ⟨"Resource not found."⟩, some "gsturisourcebin.c(1423)"⟩,
    StateChangeReturn.success⟩

/-- Concrete oracle for a run against a reachable URI: every stage
succeeds and the bus delivers an end-of-stream message. -/
def eosRunWorld : World :=
  ⟨some 1, none, StateChangeReturn.success, some 2,
    some ⟨gst.MessageType.EOS, "playbin0", none, none⟩,
    StateChangeReturn.success⟩

/-- C3: each of the four deleters performs no framework release call on a
null handle, and performs exactly the corresponding release call on a
non-null handle. -/
theorem deleters_release_iff_nonnull :
    (gst.GstElementDeleter none = [] ∧
      ∀ p, gst.GstElementDeleter (some p) = [gst.ReleaseCall.gstObjectUnref p]) ∧
    (gst.GstBusDeleter none = [] ∧
      ∀ p, gst.GstBusDeleter (some p) = [gst.ReleaseCall.gstObjectUnref p]) ∧
    (gst.GstErrorDeleter none = [] ∧
      ∀ p, gst.GstErrorDeleter (some p) = [gst.ReleaseCall.gErrorFree p]) ∧
    (gst.GstMessageDeleter none = [] ∧
      ∀ p, gst.GstMessageDeleter (some p) = [gst.ReleaseCall.gstMessageUnref p]) :=
  ⟨⟨rfl, fun _ => rfl⟩, ⟨rfl, fun _ => rfl⟩, ⟨rfl, fun _ => rfl⟩, ⟨rfl, fun _ => rfl⟩⟩

/-- C4: moving an Element, by move construction or move assignment, leaves
the source with a false validity check and the destination holding exactly
the source's raw handle, so source and destination never share a non-null
handle. -/
theorem element_move_transfers (src dst : gst.Element) :
    (src.moveConstruct.1.get = src.get ∧ src.moveConstruct.2.toBool = false ∧
      ∀ p, ¬(src.moveConstruct.1.get = some p ∧ src.moveConstruct.2.get = some p)) ∧
    ((dst.moveAssign src).1.get = src.get ∧ (dst.moveAssign src).2.1.toBool = false ∧
      ∀ p, ¬((dst.moveAssign src).1.get = some p ∧
        (dst.moveAssign src).2.1.get = some p)) := by
  refine ⟨⟨rfl, rfl, ?_⟩, ⟨rfl, rfl, ?_⟩⟩ <;>
    · intro p hp
      simpa [gst.Element.moveConstruct, gst.Element.moveAssign, gst.Element.get]
        using hp.2

/-- C9: parse_launch decides success solely on gst_parse_launch's error
out-parameter, never inspecting the returned element pointer: with a null
error it succeeds whatever the element is, and with both element and error
null it returns a success value whose Element has a false validity check. -/
theorem parse_launch_ignores_element (elem : gst.RawPtr) :
    gst.parse_launch ⟨elem, none⟩ = Except.ok ⟨elem⟩ ∧
    ∃ e, gst.parse_launch ⟨none, none⟩ = Except.ok e ∧ e.toBool = false :=
  ⟨rfl, ⟨⟨none⟩, rfl, rfl⟩⟩

/-- C5: parse_launch returns an error value exactly when the framework
parser reports an error, the returned error value wraps that non-null
error, and when the parser reports no error (and hence, by the framework
contract, returned a non-null element) the result is a valid owned Element
and no error. -/
theorem parse_launch_spec (elem : gst.RawPtr) (err : Option gst.GErrorVal)
    (hcontract : err = none → elem ≠ none) :
    ((∃ e, gst.parse_launch ⟨elem, err⟩ = Except.error e) ↔ err ≠ none) ∧
    (∀ g, err = some g → gst.parse_launch ⟨elem, err⟩ = Except.error (some g)) ∧
    (err = none →
      ∃ el, gst.parse_launch ⟨elem, err⟩ = Except.ok el ∧ el.toBool = true) := by
  cases err with
  | some g =>
    refine ⟨⟨fun _ => by simp, fun _ => ⟨some g, rfl⟩⟩, ?_, ?_⟩
    · intro g' hg'
      injection hg' with h2
      subst h2
      rfl
    · intro h
      cases h
  | none =>
    refine ⟨⟨?_, ?_⟩, ?_, ?_⟩
    · rintro ⟨e, he⟩
      simp [gst.parse_launch] at he
    · intro h
      exact absurd rfl h
    · intro g hg
      cases hg
    · intro _
      refine ⟨⟨elem⟩, rfl, ?_⟩
      have h1 : elem ≠ none := hcontract rfl
      exact Option.isSome_iff_ne_none.mpr h1

/-- Witness for C5: with no parser error and a non-null element, the result
is a valid owned Element. -/
theorem parse_launch_spec_witness :
    ∃ el, gst.parse_launch ⟨some 7, none⟩ = Except.ok el ∧ el.toBool = true :=
  (parse_launch_spec (some 7) none (fun _ => Option.some_ne_none 7)).2.2 rfl

/-- C6: for every framework behaviour, bus handle, timeout and type mask,
bus_timed_pop_filtered returns an owned message exactly when the framework
yields one, and the descriptive failure "No message received from bus"
when it yields none, in particular on a zero timeout with nothing
pending. -/
theorem bus_timed_pop_filtered_spec (fw : gst.BusOracle) (bus : gst.RawPtr)
    (timeout : Nat) (types : gst.MessageType) :
    (∀ m, fw bus timeout types = some m →
      gst.bus_timed_pop_filtered fw bus timeout types = Except.ok m) ∧
    (fw bus timeout types = none →
      gst.bus_timed_pop_filtered fw bus timeout types =
        Except.error "No message received from bus") := by
  constructor
  · intro m hm
    simp [gst.bus_timed_pop_filtered, hm]
  · intro h
    simp [gst.bus_timed_pop_filtered, h]

/-- Witness for C6: a zero timeout with no pending message yields the
descriptive failure result. -/
theorem bus_timed_pop_filtered_spec_witness :
    gst.bus_timed_pop_filtered (fun _ _ _ => none) (some 1) 0
      (gst.MessageType.bor gst.MessageType.Error gst.MessageType.EOS) =
      Except.error "No message received from bus" :=
  (bus_timed_pop_filtered_spec (fun _ _ _ => none) (some 1) 0
    (gst.MessageType.bor gst.MessageType.Error gst.MessageType.EOS)).2 rfl

/-- C7: message_parse_error reports failure exactly when the message
carries no error payload, and when it does carry one whose framework error
message is non-empty (as a real GError's message is), the first returned
component is that non-empty human-readable string. -/
theorem message_parse_error_spec (m : gst.MsgVal) :
    ((∃ s, gst.message_parse_error m = Except.error s) ↔ m.errPayload = none) ∧
    (∀ err, m.errPayload = some err → err.message ≠ "" →
      ∃ p, gst.message_parse_error m = Except.ok p ∧
        p.1 = err.message ∧ p.1 ≠ "") := by
  constructor
  · cases hm : m.errPayload with
    | none =>
      refine ⟨fun _ => rfl, fun _ => ?_⟩
      exact ⟨"No error found in message", by simp [gst.message_parse_error, hm]⟩
    | some e0 =>
      refine ⟨?_, ?_⟩
      · rintro ⟨s, hs⟩
        simp [gst.message_parse_error, hm] at hs
      · intro h
        simp at h
  · intro err herr hne
    refine ⟨(err.message, gst.GST_STR_NULL m.debugPayload), ?_, rfl, hne⟩
    simp [gst.message_parse_error, herr]

/-- Witness for C7: a message carrying a non-empty error payload parses to
a pair whose first component is that non-empty message. -/
theorem message_parse_error_spec_witness :
    ∃ p, gst.message_parse_error
        ⟨gst.MessageType.Error, "playbin0", some ⟨"boom"⟩, some "dbg"⟩ =
        Except.ok p ∧ p.1 = "boom" ∧ p.1 ≠ "" :=
  (message_parse_error_spec
    ⟨gst.MessageType.Error, "playbin0", some ⟨"boom"⟩, some "dbg"⟩).2
    ⟨"boom"⟩ rfl (by decide)

/-- C10: on every successful parse the second component is GST_STR_NULL of
the framework's debug pointer, a well-defined string; when the framework
supplies no debug information it equals the literal placeholder
"(NULL)". -/
theorem message_parse_error_debug_placeholder (m : gst.MsgVal)
    (err : gst.GErrorVal) (h : m.errPayload = some err) :
    gst.message_parse_error m =
      Except.ok (err.message, gst.GST_STR_NULL m.debugPayload) ∧
    (m.debugPayload = none → gst.GST_STR_NULL m.debugPayload = "(NULL)") := by
  constructor
  · simp [gst.message_parse_error, h]
  · intro hd
    rw [hd]
    rfl

/-- Witness for C10 at a concrete message with a null debug pointer. -/
theorem message_parse_error_debug_placeholder_witness :
    gst.message_parse_error
        ⟨gst.MessageType.Error, "playbin0", some ⟨"boom"⟩, none⟩ =
      Except.ok ("boom", "(NULL)") := by
  have h := message_parse_error_debug_placeholder
    ⟨gst.MessageType.Error, "playbin0", some ⟨"boom"⟩, none⟩ ⟨"boom"⟩ rfl
  exact h.1

/-- C1: tutorial_main returns the failure exit code exactly when pipeline
construction fails, the playing transition fails, the bus is null, no
message is received, or the final null transition fails; in every other
run, error-handled runs included, it returns EXIT_SUCCESS = 0. -/
theorem tutorial_main_exit_code (w : World) :
    ((tutorial_main w).1 = EXIT_SUCCESS ↔
      (w.parseError = none ∧ w.playResult ≠ StateChangeReturn.failure ∧
        w.busPtr ≠ none ∧ w.popMsg ≠ none ∧
        w.nullResult ≠ StateChangeReturn.failure)) ∧
    ((tutorial_main w).1 = EXIT_FAILURE ↔
      ¬(w.parseError = none ∧ w.playResult ≠ StateChangeReturn.failure ∧
        w.busPtr ≠ none ∧ w.popMsg ≠ none ∧
        w.nullResult ≠ StateChangeReturn.failure)) := by
  obtain ⟨pe, perr, pr, bp, pm, nr⟩ := w
  cases perr <;> cases bp <;> cases pm <;>
    cases pr <;> cases nr <;>
      simp [tutorial_main, gst.parse_launch, gst.bus_timed_pop_filtered,
        EXIT_SUCCESS, EXIT_FAILURE]

/-- C8: when every stage up to message receipt succeeds and the received
message's tag is neither Error nor EOS, the dispatch takes no action
(nothing is printed for the message) and control proceeds directly to the
pipeline teardown. -/
theorem tutorial_main_other_tag_no_dispatch (w : World) (m : gst.MsgVal)
    (hparse : w.parseError = none)
    (hplay : w.playResult ≠ StateChangeReturn.failure)
    (hbus : w.busPtr ≠ none) (hpop : w.popMsg = some m)
    (hne : gst.message_type m ≠ gst.MessageType.Error)
    (hneos : gst.message_type m ≠ gst.MessageType.EOS) :
    tutorial_main w =
      (if w.nullResult = StateChangeReturn.failure then
        (EXIT_FAILURE, [OutLine.unableSetNull])
      else (EXIT_SUCCESS, [])) := by
  obtain ⟨pe, perr, pr, bp, pm, nr⟩ := w
  cases bp with
  | none => exact absurd rfl hbus
  | some b =>
    simp only at hparse hpop
    subst hparse hpop
    simp [tutorial_main, gst.parse_launch, gst.bus_timed_pop_filtered,
      hne, hneos, hplay]

/-- Witness for C8: a full run delivering a StateChanged-tagged message
prints nothing and exits successfully. -/
theorem tutorial_main_other_tag_no_dispatch_witness :
    tutorial_main ⟨some 1, none, StateChangeReturn.success, some 2,
        some ⟨gst.MessageType.StateChanged, "playbin0", none, none⟩,
        StateChangeReturn.success⟩ = (EXIT_SUCCESS, []) := by
  have h := tutorial_main_other_tag_no_dispatch
    ⟨some 1, none, StateChangeReturn.success, some 2,
      some ⟨gst.MessageType.StateChanged, "playbin0", none, none⟩,
      StateChangeReturn.success⟩
    ⟨gst.MessageType.StateChanged, "playbin0", none, none⟩
    rfl (by decide) (by decide) rfl (by decide) (by decide)
  simpa using h

/-- C2 counterexample: in a run where the bus delivers an error-tagged
message with an error payload and every other stage (the final null
transition included) succeeds, the program prints the element error and
the debug string but then exits with EXIT_SUCCESS = 0, not with a failure
code as the claim states. -/
theorem tutorial_main_error_run_exits_zero :
    tutorial_main errorRunWorld =
      (EXIT_SUCCESS,
        [OutLine.errorReceived "playbin0" "Resource not found.",
         OutLine.debuggingInfo "gsturisourcebin.c(1423)"]) := by
  rfl

/-- C2 amended: in a full run whose stages all succeed, an error-tagged
message carrying an error payload makes the program print the element
error and the debug string and exit with EXIT_SUCCESS, and an
end-of-stream message makes it print the end-of-stream notice and exit
with EXIT_SUCCESS. -/
theorem tutorial_main_end_to_end (w : World)
    (hparse : w.parseError = none)
    (hplay : w.playResult ≠ StateChangeReturn.failure)
    (hbus : w.busPtr ≠ none)
    (hnull : w.nullResult ≠ StateChangeReturn.failure) :
    (∀ m err, w.popMsg = some m → m.mtype = gst.MessageType.Error →
      m.errPayload = some err →
      tutorial_main w = (EXIT_SUCCESS,
        [OutLine.errorReceived m.srcName err.message,
         OutLine.debuggingInfo (gst.GST_STR_NULL m.debugPayload)])) ∧
    (∀ m, w.popMsg = some m → m.mtype = gst.MessageType.EOS →
      tutorial_main w = (EXIT_SUCCESS, [OutLine.eosReached])) := by
  obtain ⟨pe, perr, pr, bp, pm, nr⟩ := w
  cases bp with
  | none => exact absurd rfl hbus
  | some b =>
    simp only at hparse hplay hnull
    subst hparse
    constructor
    · intro m err hpop htype hpayload
      simp only at hpop
      subst hpop
      simp [tutorial_main, gst.parse_launch, gst.bus_timed_pop_filtered,
        gst.message_type, gst.message_parse_error, hplay, hnull, htype,
        hpayload]
    · intro m hpop htype
      simp only at hpop
      subst hpop
      simp [tutorial_main, gst.parse_launch, gst.bus_timed_pop_filtered,
        gst.message_type, hplay, hnull, htype, gst.MessageType.EOS,
        gst.MessageType.Error]

/-- Witness for C2's amended claim: a concrete successful run delivering
an end-of-stream message prints the notice and exits with 0. -/
theorem tutorial_main_end_to_end_witness :
    tutorial_main eosRunWorld = (EXIT_SUCCESS, [OutLine.eosReached]) :=
  (tutorial_main_end_to_end eosRunWorld rfl (by decide) (by decide)
      (by decide)).2
    ⟨gst.MessageType.EOS, "playbin0", none, none⟩ rfl rfl
